import Mathlib

/-!
Verification development for the vufs 9P2000 file server.

The definitions below are a shallow embedding of the Go sources, rooted at
the handler file (src/unnamed/part_011) together with the constants file
(src/unnamed/part_015), the codec (src/bit.go, src/unnamed/part_007) and the
data structures (src/unnamed/part_012).  Go machine integers are embedded as
Nat (with explicit wrap where a cast truncates), Go maps as association
lists, Go pointers as arena indices, and the host filesystem (out of scope
per spec section 1) as a set of paths plus an oracle of I/O outcomes.
-/

set_option linter.unusedVariables false

deriving instance DecidableEq for Except

namespace VufsProof

/-! ## Constants (src/unnamed/part_015) -/

def VERSION9P : String := "9P2000"

def OREAD : Nat := 0
def OWRITE : Nat := 1
def ORDWR : Nat := 2
def OEXEC : Nat := 3
def OTRUNC : Nat := 16
def ORCLOSE : Nat := 64
def ODIRECT : Nat := 128

def QTDIR : Nat := 0x80
def QTFILE : Nat := 0x00

def DMDIR : Nat := 0x80000000
def DMREAD : Nat := 0x4
def DMWRITE : Nat := 0x2
def DMEXEC : Nat := 0x1

def NOFID : Nat := 0xffffffff
def MAX_MSIZE : Nat := 131072

/-! ## Protocol data (src/unnamed/part_007) -/

structure Qid where
  Path : Nat
  Vers : Nat
  Typ  : Nat
deriving DecidableEq, Repr

/-- The 9P directory-entry record (struct Dir in src/unnamed/part_007). -/
structure Dir where
  Typ    : Nat
  Dev    : Nat
  Qid    : Qid
  Mode   : Nat
  Atime  : Nat
  Mtime  : Nat
  Length : Nat
  Name   : String
  Uid    : String
  Gid    : String
  Muid   : String
deriving DecidableEq, Repr

/-! ## Server data structures (src/unnamed/part_012)

Go pointers are embedded as arena indices: `files` maps a node id to its
File record and `fidObjs` maps a fid-object id to its Fid record, so that
two fid numbers bound to the same `*Fid` in Go are two fid numbers mapped
to the same fid-object id here. -/

/-- A file-tree node (struct File).  `handle` abstracts the shared host
handle pointer to the Boolean "handle is non-nil"; `refcnt` is a Go int. -/
structure File where
  dir      : Dir
  parent   : Nat
  children : List (String × Nat)
  handle   : Bool
  refcnt   : Int
  ospath   : String
deriving DecidableEq, Repr

/-- A per-connection fid (struct Fid).  Go's `open` field is called
`opened` because `open` is reserved in Lean. -/
structure Fid where
  file   : Nat
  uid    : String
  opened : Bool
  mode   : Nat
deriving DecidableEq, Repr

/-- Per-connection state (struct Conn): the fid table maps a fid number to
a fid-object id, and `msize` is the negotiated message size. -/
structure Conn where
  fids  : List (Nat × Nat)
  msize : Nat
deriving DecidableEq, Repr

/-- Modelled from the spec: the host filesystem is an external collaborator
(spec section 1, out of scope), visible to the handlers only through
mkdir / create / remove / rename and per-path existence.  It is embedded as
the set of existing directory paths and existing file paths. -/
structure Host where
  dirs  : List String
  files : List String
deriving DecidableEq, Repr

/-- The whole single-connection server state (struct VuFs + one Conn). -/
structure State where
  files    : List (Nat × File)
  nextFile : Nat
  fidObjs  : List (Nat × Fid)
  nextFid  : Nat
  root     : Nat
  rootPath : String
  conn     : Conn
  host     : Host
deriving DecidableEq, Repr

/-! ## Association-list operations (Go map reads/writes) -/

def alookup {α : Type} : List (Nat × α) → Nat → Option α
  | [], _ => none
  | p :: rest, k => if p.1 = k then some p.2 else alookup rest k

def adel {α : Type} : List (Nat × α) → Nat → List (Nat × α)
  | [], _ => []
  | p :: rest, k => if p.1 = k then adel rest k else p :: adel rest k

def aset {α : Type} (m : List (Nat × α)) (k : Nat) (v : α) : List (Nat × α) :=
  (k, v) :: adel m k

def slookup {α : Type} : List (String × α) → String → Option α
  | [], _ => none
  | p :: rest, k => if p.1 = k then some p.2 else slookup rest k

def sdel {α : Type} : List (String × α) → String → List (String × α)
  | [], _ => []
  | p :: rest, k => if p.1 = k then sdel rest k else p :: sdel rest k

def sset {α : Type} (m : List (String × α)) (k : String) (v : α) : List (String × α) :=
  (k, v) :: sdel m k

/-- Reading through a nil/missing arena pointer yields the zero File, as Go
would yield the zero value only through an explicit `File{}`; handlers only
dereference ids they have stored, so this default is never load-bearing. -/
def zeroQid : Qid := ⟨0, 0, 0⟩

def zeroDir : Dir := ⟨0, 0, zeroQid, 0, 0, 0, 0, "", "", "", ""⟩

def zeroFile : File := ⟨zeroDir, 0, [], false, 0, ""⟩

def getFile (s : State) (i : Nat) : File :=
  (alookup s.files i).getD zeroFile

def setFile (s : State) (i : Nat) (f : File) : State :=
  { s with files := aset s.files i f }

/-! ## Helpers that live in a repository file missing from src/ -/

/-- Modelled from the spec: `findfid` is called throughout
src/unnamed/part_011 but defined in a repository file not included under
src/.  Per the spec's error taxonomy (section 7, error `fid not found`) it
looks the fid number up in the connection's fid table and fails when it is
absent.  Here it returns the fid-object id together with its value. -/
def findfid (s : State) (n : Nat) : Option (Nat × Fid) :=
  match alookup s.conn.fids n with
  | none => none
  | some oid =>
    match alookup s.fidObjs oid with
    | none => none
    | some fid => some (oid, fid)

/-- Modelled from the spec: `File.isDir` is called in
src/unnamed/part_011 but defined in a repository file not included under
src/.  Per spec section 3 a directory is a node whose mode carries the
DMDIR bit. -/
def File.isDir (f : File) : Bool :=
  f.dir.Mode &&& DMDIR != 0

/-- Modelled from the spec: Go's `filepath.Join` (host path library, out of
scope) joins the nonempty components with a slash and collapses repeated
separators. -/
def collapseSlashes : List Char → List Char
  | [] => []
  | '/' :: '/' :: rest => collapseSlashes ('/' :: rest)
  | c :: rest => c :: collapseSlashes rest

/-- Drop a trailing separator, as filepath.Clean does (except on "/"). -/
def trimSlash (l : List Char) : List Char :=
  if l ≠ ['/'] ∧ l.getLast? = some '/' then l.dropLast else l

def pathJoin2 (a b : String) : String :=
  (trimSlash (collapseSlashes
    (String.intercalate "/" ([a, b].filter (fun x => x ≠ ""))).toList)).asString

def pathJoin3 (a b c : String) : String :=
  (trimSlash (collapseSlashes
    (String.intercalate "/" ([a, b, c].filter (fun x => x ≠ ""))).toList)).asString

/-! ## Codec: byte packing (src/bit.go and pdir in src/unnamed/part_007)

Bytes are Nats < 256; the Go buffer-growth bookkeeping in pbitN is a
representation detail of append and is dropped, only the emitted byte
sequence is kept.  Strings are packed as their character codes; the
repository's names are ASCII, where Go's byte view of a string and the
character view coincide. -/

def pbit8 (x : Nat) : List Nat := [x % 256]

def pbit16 (x : Nat) : List Nat := [x % 256, (x >>> 8) % 256]

def pbit32 (x : Nat) : List Nat :=
  [x % 256, (x >>> 8) % 256, (x >>> 16) % 256, (x >>> 24) % 256]

def pbit64 (x : Nat) : List Nat := pbit32 (x % 2 ^ 32) ++ pbit32 ((x >>> 32) % 2 ^ 32)

def strBytes (s : String) : List Nat := s.toList.map Char.toNat

def pstring (s : String) : List Nat := pbit16 (strBytes s).length ++ strBytes s

def pqid (q : Qid) : List Nat := pbit8 q.Typ ++ pbit32 q.Vers ++ pbit64 q.Path

def pperm (p : Nat) : List Nat := pbit32 p

/-- pdir (src/unnamed/part_007): the packed entry is a 16-bit size prefix
holding the length of the rest, followed by the fields in order.  The Go
code writes a zero placeholder and patches it at the end; the patched value
is the same uint16. -/
def pdir (d : Dir) : List Nat :=
  let rest := pbit16 d.Typ ++ pbit32 d.Dev ++ pqid d.Qid ++ pperm d.Mode ++
    pbit32 d.Atime ++ pbit32 d.Mtime ++ pbit64 d.Length ++
    pstring d.Name ++ pstring d.Uid ++ pstring d.Gid ++ pstring d.Muid
  pbit16 rest.length ++ rest

/-! ## Pure checks (src/unnamed/part_011) -/

/-- Go strings.HasSuffix over the character list (Go compares the byte
tails; on UTF-8 text the byte tail and the character tail agree). -/
def hasSuffix (s t : String) : Bool :=
  s.toList.drop (s.toList.length - t.toList.length) == t.toList

/-- validFilename (src/unnamed/part_011 line 30). -/
def validFilename (name : String) : Bool :=
  name != "." && name != ".." && !(hasSuffix name ".vufs")

/-- CheckPerm (src/unnamed/part_011 lines 264-309).  The group branch is
commented out in the source and is omitted here as well. -/
def CheckPerm (f : File) (uid : String) (perm : Nat) : Bool :=
  if uid = "" then false
  else
    let perm := perm &&& 7
    let fperm := f.dir.Mode &&& 7
    if fperm &&& perm = perm then true
    else
      let fperm := if f.dir.Uid = uid then fperm ||| ((f.dir.Mode >>> 6) &&& 7) else fperm
      if fperm &&& perm = perm then true else false

/-- checkMode (src/unnamed/part_011 lines 124-140), over the request's Perm
and Mode fields. -/
def checkMode (fcPerm fcMode : Nat) : Option String :=
  if fcPerm &&& DMDIR ≠ 0 ∧ fcMode ≠ OREAD then some "invalid mode for a directory"
  else if fcMode &&& OTRUNC ≠ 0 then some "OTRUNC not supported"
  else if fcMode &&& ORCLOSE ≠ 0 then some "ORCLOSE not supported"
  else if fcMode &&& ODIRECT ≠ 0 then some "ODIRECT not supported"
  else none

/-! ## Handlers (src/unnamed/part_011)

Each handler is a pure function from the pre-state and the request fields
to the post-state and an `Except` reply: returning `.error e` corresponds
to the Go handler returning the error string `e` (the dispatcher then sends
Rerror), and state mutated before an error return stays mutated, as in Go.
Host I/O outcomes that the handler cannot determine (I/O errors, inode
numbers, clock reads, file contents) enter through a per-handler
environment record; structural host failures (creating under a missing
directory, removing a missing path) are decided by the Host path sets.
The concrete strings of host-generated errors are irrelevant to every
claim and are fixed placeholders here. -/

/-- Position of the first '.' in a character list (Go strings.Index,
which on UTF-8 text finds the same split point byte-wise or char-wise
because the byte 0x2E never occurs inside a multibyte sequence). -/
def indexOfDot : List Char → Option Nat
  | [] => none
  | c :: cs => if c = '.' then some 0 else (indexOfDot cs).map (· + 1)

/-- The version-truncation step of rversion (lines 40-44): truncate at the
first '.' only when its index is positive. -/
def truncVersion (ver : String) : String :=
  match indexOfDot ver.toList with
  | some i => if 0 < i then (ver.toList.take i).asString else ver
  | none => ver

/-- rversion (lines 37-75).  The pending-queue drain is a no-op in this
single-request model (the model never holds a second queued request), and
the reply is the pair (negotiated msize, version string). -/
def rversion (s : State) (fcMsize : Nat) (fcVersion : String) : State × (Nat × String) :=
  let ver := truncVersion fcVersion
  let ver := if ver ≠ VERSION9P then "unknown" else ver
  let msz := if fcMsize > MAX_MSIZE then MAX_MSIZE else fcMsize
  ({ s with conn := { s.conn with msize := msz } }, (msz, ver))

/-- rattach (lines 77-103).  The modelled findfid never produces the
source's "phase shift" sentinel, so that branch is unreachable here. -/
def rattach (s : State) (fcFid fcAfid : Nat) (fcUname fcAname : String) :
    State × Except String Qid :=
  if fcAname ≠ "/" then (s, .error "can only attach to root directory")
  else if fcAfid ≠ NOFID then (s, .error "authentication not supported")
  else match findfid s fcFid with
  | some _ => (s, .error "fid already in use on this connection")
  | none =>
    let fid : Fid := { file := s.root, uid := fcUname, opened := false, mode := 0 }
    let oid := s.nextFid
    let s' := { s with
                fidObjs := aset s.fidObjs oid fid,
                nextFid := s.nextFid + 1,
                conn := { s.conn with fids := aset s.conn.fids fcFid oid } }
    (s', .ok (getFile s' s'.root).dir.Qid)

/-- The name-walking loop of rwalk (lines 338-365): returns the qids
gathered so far and, when every name was resolved, the final node to bind. -/
def rwalkLoop (s : State) (uid : String) : Nat → List String → Bool → List Qid →
    Except String (List Qid) × Option Nat
  | f, [], _, acc => (.ok acc, some f)
  | f, wn :: rest, first, acc =>
    if wn = ".." then
      let f' := (getFile s f).parent
      rwalkLoop s uid f' rest false (acc ++ [(getFile s f').dir.Qid])
    else
      match slookup (getFile s f).children wn with
      | none =>
        if first then (.error ("'" ++ wn ++ "' not found"), none)
        else (.ok acc, none)
      | some f2 =>
        if (getFile s f2).isDir && !CheckPerm (getFile s f2) uid DMEXEC then
          if first then (.error "permission denied", none)
          else (.ok acc, none)
        else rwalkLoop s uid f2 rest false (acc ++ [(getFile s f2).dir.Qid])

/-- rwalk (lines 311-374).  Binding `newfid` in the zero-name case reuses
the same fid-object id, which models Go storing the same *Fid pointer. -/
def rwalk (s : State) (fcFid fcNewfid : Nat) (wname : List String) :
    State × Except String (List Qid) :=
  match findfid s fcFid with
  | none => (s, .error "fid not found")
  | some (oid, fid) =>
    if wname.length > 0 ∧ ¬ (getFile s fid.file).isDir then (s, .error "not a directory")
    else if fid.opened then (s, .error "already open")
    else if wname.length = 0 then
      ({ s with conn := { s.conn with fids := aset s.conn.fids fcNewfid oid } },
       .ok [(getFile s fid.file).dir.Qid])
    else if (alookup s.conn.fids fcNewfid).isSome then (s, .error "already in use")
    else
      match rwalkLoop s fid.uid fid.file wname true [] with
      | (.error e, _) => (s, .error e)
      | (.ok qids, none) => (s, .ok qids)
      | (.ok qids, some f) =>
        let nfid : Fid := { file := f, uid := fid.uid, opened := false, mode := 0 }
        let oid2 := s.nextFid
        ({ s with
           fidObjs := aset s.fidObjs oid2 nfid,
           nextFid := s.nextFid + 1,
           conn := { s.conn with fids := aset s.conn.fids fcNewfid oid2 } }, .ok qids)

/-- rclunk (lines 376-392). -/
def rclunk (s : State) (fcFid : Nat) : State × Except String Unit :=
  match findfid s fcFid with
  | none => (s, .error "fid not found")
  | some (_, fid) =>
    let f := getFile s fid.file
    let f := { f with refcnt := f.refcnt - 1 }
    let f := if f.refcnt = 0 ∧ f.handle then { f with handle := false } else f
    let s := setFile s fid.file f
    ({ s with conn := { s.conn with fids := adel s.conn.fids fcFid } }, .ok ())

structure OpenEnv where
  openErr : Option String
deriving DecidableEq, Repr

/-- ropen (lines 496-553).  The source's four sequential permission ifs,
each returning the same error, are written as one else-if chain.  The
host OpenFile (read-only for directories, read-write for files) succeeds
structurally when the backing path exists, and `openErr` injects the
residual host I/O failures. -/
def ropen (env : OpenEnv) (s : State) (fcFid fcMode fcPerm : Nat) :
    State × Except String Unit :=
  match findfid s fcFid with
  | none => (s, .error "fid not found")
  | some (oid, fid) =>
    match checkMode fcPerm fcMode with
    | some e => (s, .error e)
    | none =>
      let f := getFile s fid.file
      let m := fcMode &&& 3
      if m &&& OWRITE = OWRITE ∧ ¬ CheckPerm f fid.uid DMWRITE then
        (s, .error "permission denied")
      else if m &&& ORDWR = ORDWR ∧ (¬ CheckPerm f fid.uid DMWRITE ∨ ¬ CheckPerm f fid.uid DMREAD) then
        (s, .error "permission denied")
      else if m &&& OREAD = OREAD ∧ ¬ CheckPerm f fid.uid DMREAD then
        (s, .error "permission denied")
      else if m &&& OEXEC = OEXEC ∧ ¬ CheckPerm f fid.uid DMEXEC then
        (s, .error "permission denied")
      else
        match (if !f.handle then
                 (if f.ospath ∈ s.host.dirs ∨ f.ospath ∈ s.host.files then env.openErr
                  else some "open: no such file")
               else none) with
        | some e => (s, .error e)
        | none =>
          let s := setFile s fid.file { f with handle := true, refcnt := f.refcnt + 1 }
          ({ s with fidObjs := aset s.fidObjs oid { fid with opened := true, mode := fcMode } },
           .ok ())

structure CreateEnv where
  mkdirErr : Option String
  openDirErr : Option String
  openFileErr : Option String
  sidecarOpenErr : Option String
  sidecarWriteErr : Option String
  statErr : Option String
  info2statErr : Option String
  statIno : Nat
  nowMs : Nat
  nowSec : Nat
deriving DecidableEq, Repr

/-- Bitwise complement of a uint32 mask (Go ^Perm(x) on the low 32 bits). -/
def compl32 (x : Nat) : Nat := 0xffffffff ^^^ x

/-- The tail of rcreate after the host object exists (lines 196-261):
writeOwnership, fp.Stat, info2stat, then node construction and fid
rebinding.  writeOwnership has two failure points: its OpenFile of the
sidecar can fail (no sidecar is created), or the OpenFile succeeds -
creating or truncating the sidecar - and the following WriteString fails,
leaving an empty sidecar on the host.  In either case the handler only
closes the handle (the created object is not removed); on stat failure it
removes both the object and the sidecar.  The source assigns Qid.Type
twice (QTDIR/QTFILE, then unconditionally uint8(perm >> 24)); only the
final value is kept. -/
def rcreateCommit (env : CreateEnv) (s : State) (parentId : Nat) (uid : String)
    (ospath : String) (mode : Nat) (fcFid : Nat) (fcName : String) (fcPerm fcMode : Nat) :
    State × Except String Qid :=
  let gid := (getFile s parentId).dir.Gid
  let scpath := ospath ++ ".vufs"
  match env.sidecarOpenErr with
  | some e => (s, .error e)
  | none =>
    let s := { s with host := { s.host with
      files := if scpath ∈ s.host.files then s.host.files else scpath :: s.host.files } }
    match env.sidecarWriteErr with
    | some e => (s, .error e)
    | none =>
    match env.statErr with
    | some e =>
      ({ s with host := { s.host with
                          files := (s.host.files.erase ospath).erase scpath,
                          dirs := s.host.dirs.erase ospath } }, .error e)
    | none =>
    match env.info2statErr with
    | some e =>
      ({ s with host := { s.host with
                          files := (s.host.files.erase ospath).erase scpath,
                          dirs := s.host.dirs.erase ospath } }, .error e)
    | none =>
      let qid : Qid := { Path := env.statIno
                         Vers := env.nowMs % 2 ^ 32
                         Typ := (fcPerm >>> 24) % 256 }
      let ndir : Dir := { zeroDir with
                          Qid := qid
                          Mode := mode
                          Atime := env.nowSec % 2 ^ 32
                          Mtime := env.nowSec % 2 ^ 32
                          Length := 0
                          Name := fcName
                          Uid := uid
                          Gid := gid
                          Muid := uid }
      let nf : File := { dir := ndir
                         parent := parentId
                         children := []
                         handle := true
                         refcnt := 1
                         ospath := ospath }
      let nid := s.nextFile
      let s := { s with files := aset s.files nid nf, nextFile := s.nextFile + 1 }
      let par := getFile s parentId
      let s := setFile s parentId { par with children := sset par.children fcName nid }
      let noid := s.nextFid
      let nfid : Fid := { file := nid, uid := uid, opened := true, mode := fcMode }
      let s := { s with
                 fidObjs := aset s.fidObjs noid nfid,
                 nextFid := s.nextFid + 1,
                 conn := { s.conn with fids := aset s.conn.fids fcFid noid } }
      (s, .ok qid)

/-- rcreate (lines 142-262).  The host ospath is Join(Root, parent.Name,
name) exactly as in the source (the parent's own name, not its full
path).  Mkdir requires the parent path to be an existing directory and the
target to be absent; OpenFile with O_CREATE requires the parent path to be
an existing directory and the target not to be a directory. -/
def rcreate (env : CreateEnv) (s : State) (fcFid : Nat) (fcName : String)
    (fcPerm fcMode : Nat) : State × Except String Qid :=
  match findfid s fcFid with
  | none => (s, .error "fid not found")
  | some (_, fid) =>
    let parent := getFile s fid.file
    if !validFilename fcName then (s, .error "invalid file name")
    else if !CheckPerm parent fid.uid DMWRITE then (s, .error "permission denied")
    else if (slookup parent.children fcName).isSome then (s, .error "already exists")
    else match checkMode fcPerm fcMode with
    | some e => (s, .error e)
    | none =>
      let ospath := pathJoin3 s.rootPath parent.dir.Name fcName
      let pardir := pathJoin2 s.rootPath parent.dir.Name
      if fcPerm &&& DMDIR != 0 then
        let mode := fcPerm &&& (compl32 0o777 ||| (parent.dir.Mode &&& 0o777))
        match (if pardir ∈ s.host.dirs ∧ ospath ∉ s.host.dirs ∧ ospath ∉ s.host.files then
                 env.mkdirErr else some "mkdir failed") with
        | some e => (s, .error e)
        | none =>
          let s1 := { s with host := { s.host with dirs := ospath :: s.host.dirs } }
          match env.openDirErr with
          | some e =>
            ({ s1 with host := { s1.host with dirs := s1.host.dirs.erase ospath } }, .error e)
          | none => rcreateCommit env s1 fid.file fid.uid ospath mode fcFid fcName fcPerm fcMode
      else
        let mode := fcPerm &&& (compl32 0o666 ||| (parent.dir.Mode &&& 0o666))
        match (if pardir ∈ s.host.dirs ∧ ospath ∉ s.host.dirs then
                 env.openFileErr else some "open failed") with
        | some e => (s, .error e)
        | none =>
          let s1 := { s with host := { s.host with
            files := if ospath ∈ s.host.files then s.host.files else ospath :: s.host.files } }
          rcreateCommit env s1 fid.file fid.uid ospath mode fcFid fcName fcPerm fcMode

structure ReadEnv where
  readData : List Nat
  readErr : Option String
  nowSec : Nat
deriving DecidableEq, Repr

/-- The directory branch loop of rread (lines 461-475), over the packed
stat entries of the children in key order.  Go uint64 arithmetic on
offset, count and bytesread coincides with Nat arithmetic whenever the
quantities stay below 2^64; the wrap can only change an outcome for a
directory whose packed entries total at least 2^64 - count bytes, and in
that regime both readings reply with empty data. -/
def dirReadLoop : List (List Nat) → Nat → Nat → Nat → List Nat → Except String (List Nat)
  | [], _, _, _, acc => .ok acc
  | b :: rest, offset, count, bytesread, acc =>
    let n := b.length
    if bytesread ≥ offset ∧ bytesread + n < offset + count then
      if acc.length = 0 ∧ bytesread ≠ offset then .error "invalid offset"
      else
        let acc := acc ++ b
        if bytesread + n ≥ offset + count then .ok acc
        else dirReadLoop rest offset count (bytesread + n) acc
    else
      if bytesread + n ≥ offset + count then .ok acc
      else dirReadLoop rest offset count (bytesread + n) acc

/-- Lexicographic order on character lists, the order sort.Strings uses
(byte-lexicographic in Go, which agrees with codepoint order on UTF-8). -/
def charListLe : List Char → List Char → Bool
  | [], _ => true
  | _ :: _, [] => false
  | a :: as, b :: bs => if a = b then charListLe as bs else decide (a < b)

def insertSorted (x : String) : List String → List String
  | [] => [x]
  | y :: rest => if charListLe x.toList y.toList then x :: y :: rest else y :: insertSorted x rest

/-- Go sort.Strings: sort the key list lexicographically (insertion sort;
the sorted result is what matters, not the algorithm). -/
def sortStrings : List String → List String
  | [] => []
  | x :: rest => insertSorted x (sortStrings rest)

/-- The packed stat entries of a directory's children, keys sorted as by
sort.Strings. -/
def childEntries (s : State) (f : File) : List (List Nat) :=
  let keys := sortStrings (f.children.map (fun p => p.1))
  keys.filterMap (fun k => (slookup f.children k).map (fun cid => pdir (getFile s cid).dir))

/-- rread (lines 433-494).  cap(rc.Data) is the msize installed by the
last rversion, modelled per-connection; the file branch's host ReadAt
content and non-EOF errors come from the environment. -/
def rread (env : ReadEnv) (s : State) (fcFid offset count : Nat) :
    State × Except String (List Nat) :=
  match findfid s fcFid with
  | none => (s, .error "fid not found")
  | some (_, fid) =>
    if !fid.opened then (s, .error "not open")
    else if count > s.conn.msize then (s, .error "invalid count")
    else
      let f := getFile s fid.file
      if f.isDir then
        match dirReadLoop (childEntries s f) offset count 0 [] with
        | .error e => (s, .error e)
        | .ok data =>
          let s := setFile s fid.file { f with dir := { f.dir with Atime := env.nowSec % 2 ^ 32 } }
          (s, .ok data)
      else
        if offset ≥ f.dir.Length then (s, .ok [])
        else
          match env.readErr with
          | some e => (s, .error e)
          | none =>
            let s := setFile s fid.file { f with dir := { f.dir with Atime := env.nowSec % 2 ^ 32 } }
            (s, .ok env.readData)

structure WriteEnv where
  writeErr : Option String
  statErr : Option String
  statSize : Nat
  nowSec : Nat
deriving DecidableEq, Repr

/-- rwrite (lines 394-431).  On success WriteAt reports len(data) bytes
written; a stat failure surfaces after the time/muid updates, exactly as
in the source. -/
def rwrite (env : WriteEnv) (s : State) (fcFid : Nat) (data : List Nat) (offset : Nat) :
    State × Except String Nat :=
  match findfid s fcFid with
  | none => (s, .error "fid not found")
  | some (_, fid) =>
    if !fid.opened then (s, .error "not open")
    else if fid.mode &&& OWRITE = 0 then (s, .error "not opened for writing")
    else if (getFile s fid.file).isDir then (s, .error "can't write to a directory")
    else
      match env.writeErr with
      | some e => (s, .error e)
      | none =>
        let f := getFile s fid.file
        let f := { f with dir := { f.dir with
                                   Atime := env.nowSec % 2 ^ 32,
                                   Mtime := env.nowSec % 2 ^ 32,
                                   Muid := fid.uid } }
        let s := setFile s fid.file f
        match env.statErr with
        | some e => (s, .error e)
        | none =>
          (setFile s fid.file { f with dir := { f.dir with Length := env.statSize } },
           .ok data.length)

structure RemoveEnv where
  closeErr : Option String
  removeErr : Option String
deriving DecidableEq, Repr

/-- os.Remove against the modelled host: the path must exist; `oracle`
injects residual host failures. -/
def hostRemove (h : Host) (p : String) (oracle : Option String) : Except String Host :=
  if p ∈ h.files then
    match oracle with
    | some e => .error e
    | none => .ok { h with files := h.files.erase p }
  else if p ∈ h.dirs then
    match oracle with
    | some e => .error e
    | none => .ok { h with dirs := h.dirs.erase p }
  else .error "remove: no such file"

/-- rremove (lines 555-583): close the handle if open, remove the host
file, detach from the parent's children, zero the node, drop the fid.  No
sidecar path is touched. -/
def rremove (env : RemoveEnv) (s : State) (fcFid : Nat) : State × Except String Unit :=
  match findfid s fcFid with
  | none => (s, .error "fid not found")
  | some (_, fid) =>
    let f := getFile s fid.file
    if !CheckPerm (getFile s f.parent) fid.uid DMWRITE then (s, .error "permission denied")
    else
      match (if f.handle then env.closeErr else none) with
      | some e => (s, .error e)
      | none =>
        match hostRemove s.host f.ospath env.removeErr with
        | .error e => (s, .error e)
        | .ok h =>
          let s := { s with host := h }
          let par := getFile s f.parent
          let s := setFile s f.parent { par with children := sdel par.children f.dir.Name }
          let s := setFile s fid.file zeroFile
          ({ s with conn := { s.conn with fids := adel s.conn.fids fcFid } }, .ok ())

/-! ## Spec-side definitions

These definitions follow the words of the specification (and of the claims
derived from it); they exist to be compared against the embedded code. -/

def isOkE {α : Type} : Except String α → Bool
  | .ok _ => true
  | .error _ => false

/-- The spec's version truncation: cut the string at its first '.'
unconditionally (the embedded handler only cuts at a positive index). -/
def specTrunc (s : String) : String :=
  match indexOfDot s.toList with
  | some i => (s.toList.take i).asString
  | none => s

/-- The entries (given with their packed bytes) whose bytes start at or
after `offset` and end strictly before `endw`, walking from byte position
`pos`. -/
def windowSelect (entries : List (List Nat)) (offset endw pos : Nat) : List (List Nat) :=
  match entries with
  | [] => []
  | b :: rest =>
    (if pos ≥ offset ∧ pos + b.length < endw then [b] else []) ++
      windowSelect rest offset endw (pos + b.length)

/-- The starting byte position of the first entry selected by
`windowSelect`, if any. -/
def firstSelStart (entries : List (List Nat)) (offset endw pos : Nat) : Option Nat :=
  match entries with
  | [] => none
  | b :: rest =>
    if pos ≥ offset ∧ pos + b.length < endw then some pos
    else firstSelStart rest offset endw (pos + b.length)

/-- Directory read as the amended claim words it: concatenate the whole
packed entries of the contiguous run that starts at or after `offset` and
ends strictly before `offset + count`; fail with "invalid offset" exactly
when some entry is returned and the first one does not start at `offset`. -/
def specDirRead (entries : List (List Nat)) (offset count : Nat) : Except String (List Nat) :=
  match firstSelStart entries offset (offset + count) 0 with
  | none => .ok []
  | some st =>
    if st ≠ offset then .error "invalid offset"
    else .ok (windowSelect entries offset (offset + count) 0).flatten

/-- Directory read as claim C5 states it: an entry is returned when its
bytes lie entirely within the half-open window [offset, offset + count),
that is, it may end exactly at offset + count. -/
def windowSelectClaim (entries : List (List Nat)) (offset endw pos : Nat) : List (List Nat) :=
  match entries with
  | [] => []
  | b :: rest =>
    (if pos ≥ offset ∧ pos + b.length ≤ endw then [b] else []) ++
      windowSelectClaim rest offset endw (pos + b.length)

def firstSelStartClaim (entries : List (List Nat)) (offset endw pos : Nat) : Option Nat :=
  match entries with
  | [] => none
  | b :: rest =>
    if pos ≥ offset ∧ pos + b.length ≤ endw then some pos
    else firstSelStartClaim rest offset endw (pos + b.length)

def specDirReadClaim (entries : List (List Nat)) (offset count : Nat) : Except String (List Nat) :=
  match firstSelStartClaim entries offset (offset + count) 0 with
  | none => .ok []
  | some st =>
    if st ≠ offset then .error "invalid offset"
    else .ok (windowSelectClaim entries offset (offset + count) 0).flatten

/-- The number of live open fids of the connection that are bound to node
`nid` (spec invariant 2). -/
def openFidCount (s : State) (nid : Nat) : Nat :=
  (s.conn.fids.filter (fun p =>
    match alookup s.fidObjs p.2 with
    | some fo => fo.opened && fo.file == nid
    | none => false)).length

/-! ## Concrete scenario states

These are the concrete inputs used by the witness and counterexample
theorems.  `st0` is the state of a freshly loaded server exporting an empty
root directory at host path "/r" (root mode DMDIR|0777 with owner adm, per
spec sections 4.5 and 3 invariant 5) with one idle connection; the other
states extend it with fids, children and host objects. -/

def rootDirW : Dir :=
  { Typ := 0, Dev := 0, Qid := ⟨11, 7, 0x80⟩, Mode := DMDIR ||| 0o777,
    Atime := 0, Mtime := 0, Length := 0, Name := "/",
    Uid := "adm", Gid := "adm", Muid := "adm" }

def rootFileW : File :=
  { dir := rootDirW, parent := 0, children := [], handle := false,
    refcnt := 0, ospath := "/r" }

def st0 : State :=
  { files := [(0, rootFileW)], nextFile := 1, fidObjs := [], nextFid := 0,
    root := 0, rootPath := "/r",
    conn := { fids := [], msize := MAX_MSIZE },
    host := { dirs := ["/r"], files := [] } }

/-- The state after a successful attach of fid 1 for user "mark" on st0. -/
def stAtt : State := (rattach st0 1 NOFID "mark" "/").1

/-- The fid object that the attach in stAtt created. -/
def fidAttW : Fid := ⟨0, "mark", false, 0⟩

def envO : OpenEnv := { openErr := none }

def envC : CreateEnv :=
  { mkdirErr := none, openDirErr := none, openFileErr := none,
    sidecarOpenErr := none, sidecarWriteErr := none,
    statErr := none, info2statErr := none, statIno := 42, nowMs := 1000, nowSec := 1 }

/-- A create environment in which opening the sidecar file fails. -/
def envC6 : CreateEnv := { envC with sidecarOpenErr := some "disk full" }

/-- A create environment in which the sidecar file is created but the
write of its contents fails. -/
def envC6w : CreateEnv := { envC with sidecarWriteErr := some "disk full" }

def fileDirW : Dir :=
  { Typ := 0, Dev := 0, Qid := ⟨12, 9, 0⟩, Mode := 0o644,
    Atime := 0, Mtime := 0, Length := 5, Name := "t.txt",
    Uid := "mark", Gid := "adm", Muid := "mark" }

def fileW : File :=
  { dir := fileDirW, parent := 0, children := [], handle := true,
    refcnt := 1, ospath := "/r/t.txt" }

/-- Root with one regular file child "t.txt"; fid 1 is open on the child
with mode ORDWR. -/
def st3 : State :=
  { files := [(0, { rootFileW with children := [("t.txt", 1)] }), (1, fileW)],
    nextFile := 2, fidObjs := [(0, ⟨1, "mark", true, ORDWR⟩)], nextFid := 1,
    root := 0, rootPath := "/r",
    conn := { fids := [(1, 0)], msize := MAX_MSIZE },
    host := { dirs := ["/r"], files := ["/r/t.txt", "/r/t.txt.vufs"] } }

def envW : WriteEnv := { writeErr := none, statErr := none, statSize := 2, nowSec := 5 }

def envRem : RemoveEnv := { closeErr := none, removeErr := none }

/-- Like st3 but fid 1 sits on the root directory, not open. -/
def st4 : State :=
  { st3 with fidObjs := [(0, ⟨0, "mark", false, 0⟩)] }

def aDirW : Dir := { fileDirW with Qid := ⟨13, 1, 0⟩, Name := "a.txt" }

def bDirW : Dir := { fileDirW with Qid := ⟨14, 1, 0⟩, Name := "b.txt" }

/-- Root with two file children; fid 1 is open for reading on the root
directory.  Each child's packed stat entry is 65 bytes long. -/
def st5 : State :=
  { files := [(0, { rootFileW with children := [("b.txt", 2), ("a.txt", 1)] }),
              (1, { fileW with dir := aDirW, ospath := "/r/a.txt" }),
              (2, { fileW with dir := bDirW, ospath := "/r/b.txt" })],
    nextFile := 3, fidObjs := [(0, ⟨0, "mark", true, 0⟩)], nextFid := 1,
    root := 0, rootPath := "/r",
    conn := { fids := [(1, 0)], msize := MAX_MSIZE },
    host := { dirs := ["/r"], files := [] } }

def envR : ReadEnv := { readData := [], readErr := none, nowSec := 9 }

/-- Like st3 but the root's mode is DMDIR|0555, so user "mark" (neither
owner nor granted the write bit in the other class) has no write
permission on the root; fid 1 sits on the root, not open. -/
def stPerm : State :=
  { files := [(0, { rootFileW with
                    dir := { rootDirW with Mode := DMDIR ||| 0o555 },
                    children := [("t.txt", 1)] }),
              (1, fileW)],
    nextFile := 2, fidObjs := [(0, ⟨0, "mark", false, 0⟩)], nextFid := 1,
    root := 0, rootPath := "/r",
    conn := { fids := [(1, 0)], msize := MAX_MSIZE },
    host := { dirs := ["/r"], files := ["/r/t.txt", "/r/t.txt.vufs"] } }

def subDirW : Dir :=
  { Typ := 0, Dev := 0, Qid := ⟨20, 1, 0x80⟩, Mode := DMDIR ||| 0o777,
    Atime := 0, Mtime := 0, Length := 0, Name := "sub",
    Uid := "adm", Gid := "adm", Muid := "adm" }

def dDirW : Dir :=
  { Typ := 0, Dev := 0, Qid := ⟨21, 1, 0x80⟩, Mode := DMDIR ||| 0o777,
    Atime := 0, Mtime := 0, Length := 0, Name := "d",
    Uid := "adm", Gid := "adm", Muid := "adm" }

def dFileDirW : Dir :=
  { Typ := 0, Dev := 0, Qid := ⟨22, 1, 0⟩, Mode := 0o666,
    Atime := 0, Mtime := 0, Length := 0, Name := "d",
    Uid := "mark", Gid := "adm", Muid := "mark" }

/-- A consistent loaded tree: root contains the directories "d" and "sub",
and "sub" contains a regular file also named "d"; fid 1 sits on that
regular file.  Because rcreate builds the host path from the parent
node's own name (not its full path), a create through this fid lands in
the real host directory "/r/d". -/
def stFd : State :=
  { files := [(0, { rootFileW with children := [("d", 3), ("sub", 2)] }),
              (1, { dir := dFileDirW, parent := 2, children := [], handle := false,
                    refcnt := 0, ospath := "/r/sub/d" }),
              (2, { dir := subDirW, parent := 0, children := [("d", 1)], handle := false,
                    refcnt := 0, ospath := "/r/sub" }),
              (3, { dir := dDirW, parent := 0, children := [], handle := false,
                    refcnt := 0, ospath := "/r/d" })],
    nextFile := 4, fidObjs := [(0, ⟨1, "mark", false, 0⟩)], nextFid := 1,
    root := 0, rootPath := "/r",
    conn := { fids := [(1, 0)], msize := MAX_MSIZE },
    host := { dirs := ["/r", "/r/sub", "/r/d"],
              files := ["/r/sub/d", "/r/sub/d.vufs"] } }

/-- The fid object of stFd: on the regular file node 1, not open. -/
def fidFdW : Fid := ⟨1, "mark", false, 0⟩

/-- The fid object of st3: open on node 1 with mode ORDWR. -/
def fidW3 : Fid := ⟨1, "mark", true, ORDWR⟩

/-- The fid object of st5: open for reading on the root directory. -/
def fidOpenRootW : Fid := ⟨0, "mark", true, 0⟩

/-! ## Association-list lemmas -/

theorem alookup_aset_self {α : Type} (m : List (Nat × α)) (k : Nat) (v : α) :
    alookup (aset m k v) k = some v := by
  simp [alookup, aset]

theorem alookup_adel_ne {α : Type} (m : List (Nat × α)) (k j : Nat)
    (h : j ≠ k) : alookup (adel m k) j = alookup m j := by
  induction m with
  | nil => rfl
  | cons p rest ih =>
    by_cases hk : p.1 = k
    · have hj : p.1 ≠ j := by rw [hk]; exact Ne.symm h
      simp [adel, alookup, hk, hj, Ne.symm h, ih]
    · by_cases hj : p.1 = j
      · simp [adel, alookup, hk, hj, h]
      · simp [adel, alookup, hk, hj, ih]

theorem alookup_aset_ne {α : Type} (m : List (Nat × α)) (k j : Nat) (v : α)
    (h : j ≠ k) : alookup (aset m k v) j = alookup m j := by
  simp [alookup, aset, Ne.symm h, alookup_adel_ne m k j h]

theorem alookup_adel_self {α : Type} (m : List (Nat × α)) (k : Nat) :
    alookup (adel m k) k = none := by
  induction m with
  | nil => rfl
  | cons p rest ih =>
    by_cases hk : p.1 = k
    · simp [adel, hk, ih]
    · simp [adel, alookup, hk, ih]

theorem slookup_sdel_ne {α : Type} (m : List (String × α)) (k j : String)
    (h : j ≠ k) : slookup (sdel m k) j = slookup m j := by
  induction m with
  | nil => rfl
  | cons p rest ih =>
    by_cases hk : p.1 = k
    · have hj : p.1 ≠ j := by rw [hk]; exact Ne.symm h
      simp [sdel, slookup, hk, hj, Ne.symm h, ih]
    · by_cases hj : p.1 = j
      · simp [sdel, slookup, hk, hj, h]
      · simp [sdel, slookup, hk, hj, ih]

theorem slookup_sdel_self {α : Type} (m : List (String × α)) (k : String) :
    slookup (sdel m k) k = none := by
  induction m with
  | nil => rfl
  | cons p rest ih =>
    by_cases hk : p.1 = k
    · simp [sdel, hk, ih]
    · simp [sdel, slookup, hk, ih]

theorem getFile_setFile_self (s : State) (i : Nat) (f : File) :
    getFile (setFile s i f) i = f := by
  simp [getFile, setFile, alookup_aset_self]

theorem getFile_setFile_ne (s : State) (i j : Nat) (f : File) (h : j ≠ i) :
    getFile (setFile s i f) j = getFile s j := by
  simp [getFile, setFile, alookup_aset_ne _ _ _ _ h]

/-! ## General lemmas -/

theorem indexOfDot_zero {l : List Char} (h : indexOfDot l = some 0) : ∃ t, l = '.' :: t := by
  cases l with
  | nil => simp [indexOfDot] at h
  | cons c cs =>
    by_cases hc : c = '.'
    · exact ⟨cs, by rw [hc]⟩
    · rw [indexOfDot, if_neg hc] at h
      cases hx : indexOfDot cs with
      | none => rw [hx] at h; simp at h
      | some i => rw [hx] at h; simp at h

/-- The handler's version truncation (cut only at a positive dot index)
agrees with the spec's unconditional cut once both are compared against
"9P2000": a version starting with '.' is not "9P2000" either way. -/
theorem truncVersion_eq_spec (v : String) :
    (if truncVersion v ≠ VERSION9P then "unknown" else truncVersion v) =
    (if specTrunc v = VERSION9P then VERSION9P else "unknown") := by
  cases hx : indexOfDot v.toList with
  | none =>
    simp only [String.toList] at hx
    by_cases h : v = VERSION9P
    · subst h
      simp [truncVersion, specTrunc, String.toList, hx]
    · simp [truncVersion, specTrunc, String.toList, hx, h]
  | some i =>
    by_cases hi : 0 < i
    · simp only [String.toList] at hx
      by_cases h : ((v.data.take i).asString) = VERSION9P <;>
        simp [truncVersion, specTrunc, String.toList, hx, hi, h]
    · have hi0 : i = 0 := by omega
      subst hi0
      obtain ⟨t, ht⟩ := indexOfDot_zero hx
      simp only [String.toList] at hx
      have hv : v ≠ VERSION9P := by
        intro h
        rw [h] at ht
        have h9 : VERSION9P.toList = ['9', 'P', '2', '0', '0', '0'] := rfl
        rw [h9] at ht
        injection ht with h1 _
        exact absurd h1 (by decide)
      have hsp : (([] : List Char).asString) ≠ VERSION9P := by decide
      simp [truncVersion, specTrunc, String.toList, hx, hv, List.take, hsp]

theorem append_vufs_ne (p : String) : p ≠ p ++ ".vufs" := by
  intro h
  have hl := congrArg String.length h
  rw [String.length_append] at hl
  have h6 : ".vufs".length = 5 := rfl
  omega

theorem windowSelect_nil_of_ge (entries : List (List Nat)) (offset endw pos : Nat)
    (h : pos ≥ endw) : windowSelect entries offset endw pos = [] := by
  induction entries generalizing pos with
  | nil => rfl
  | cons b rest ih =>
    rw [windowSelect]
    have hns : ¬ (pos ≥ offset ∧ pos + b.length < endw) := by
      rintro ⟨_, hlt⟩
      omega
    rw [if_neg hns]
    simp [ih (pos + b.length) (by omega)]

theorem firstSelStart_none_of_ge (entries : List (List Nat)) (offset endw pos : Nat)
    (h : pos ≥ endw) : firstSelStart entries offset endw pos = none := by
  induction entries generalizing pos with
  | nil => rfl
  | cons b rest ih =>
    rw [firstSelStart]
    have hns : ¬ (pos ≥ offset ∧ pos + b.length < endw) := by
      rintro ⟨_, hlt⟩
      omega
    rw [if_neg hns]
    exact ih (pos + b.length) (by omega)

/-- The directory-read loop of rread computes exactly the strict-window
selection: the concatenation of the whole entries starting at or after
offset and ending strictly before offset+count, with the "invalid offset"
error exactly when the first selected entry does not start at offset. -/
theorem dirReadLoop_eq (entries : List (List Nat)) (offset count pos : Nat) (acc : List Nat)
    (hne : ∀ x ∈ entries, x ≠ []) :
    dirReadLoop entries offset count pos acc =
      (if acc.length = 0 then
        match firstSelStart entries offset (offset + count) pos with
        | none => .ok acc
        | some st =>
          if st = offset then
            .ok (acc ++ (windowSelect entries offset (offset + count) pos).flatten)
          else .error "invalid offset"
      else .ok (acc ++ (windowSelect entries offset (offset + count) pos).flatten)) := by
  induction entries generalizing pos acc with
  | nil =>
    by_cases hacc : acc.length = 0 <;>
      simp [dirReadLoop, firstSelStart, windowSelect, hacc]
  | cons b rest ih =>
    have hb : b ≠ [] := hne b (List.mem_cons_self b rest)
    have hner : ∀ x ∈ rest, x ≠ [] := fun x hx => hne x (List.mem_cons_of_mem b hx)
    rw [dirReadLoop, windowSelect, firstSelStart]
    by_cases hsel : pos ≥ offset ∧ pos + b.length < offset + count
    · rw [if_pos hsel, if_pos hsel, if_pos hsel]
      by_cases herr : acc.length = 0 ∧ pos ≠ offset
      · rw [if_pos herr]
        simp [herr.1, herr.2]
      · rw [if_neg herr]
        have hnobrk : ¬ (pos + b.length ≥ offset + count) := by omega
        rw [if_neg hnobrk]
        rw [ih (pos + b.length) (acc ++ b) hner]
        have haccb : (acc ++ b).length ≠ 0 := by
          simp [List.length_append]
          intro h1 h2
          exact hb h2
        rw [if_neg haccb]
        by_cases hacc : acc.length = 0
        · have hpo : pos = offset := by
            by_contra hpo
            exact herr ⟨hacc, hpo⟩
          simp [hacc, hpo]
        · simp [hacc]
    · rw [if_neg hsel, if_neg hsel, if_neg hsel]
      by_cases hbrk : pos + b.length ≥ offset + count
      · rw [if_pos hbrk]
        rw [windowSelect_nil_of_ge rest offset (offset + count) (pos + b.length) hbrk,
          firstSelStart_none_of_ge rest offset (offset + count) (pos + b.length) hbrk]
        by_cases hacc : acc.length = 0 <;> simp [hacc]
      · rw [if_neg hbrk]
        exact ih (pos + b.length) acc hner

theorem pdir_ne_nil (d : Dir) : pdir d ≠ [] := by
  simp [pdir, pbit16]

theorem childEntries_ne (s : State) (f : File) : ∀ x ∈ childEntries s f, x ≠ [] := by
  intro x hx
  simp only [childEntries, List.mem_filterMap] at hx
  obtain ⟨a, ha, heq⟩ := hx
  obtain ⟨cid, hcid, hx⟩ := Option.map_eq_some'.mp heq
  rw [← hx]
  exact pdir_ne_nil _

/-! ## Claim C1 -/

/-- Claim C1: CheckPerm(N, U, p), for p drawn from DMREAD/DMWRITE/DMEXEC,
denies when U is empty; otherwise it grants exactly when p is contained in
the node's other bits (mode &&& 7), or U is the node's owner and p is
contained in the union of the other bits and the owner bits
((mode >>> 6) &&& 7). -/
theorem checkPerm_matches_spec (f : File) (u : String) (p : Nat)
    (hp : p = DMREAD ∨ p = DMWRITE ∨ p = DMEXEC) :
    CheckPerm f u p = true ↔
      (u ≠ "" ∧ ((f.dir.Mode &&& 7) &&& p = p ∨
        (f.dir.Uid = u ∧ ((f.dir.Mode &&& 7) ||| ((f.dir.Mode >>> 6) &&& 7)) &&& p = p))) := by
  have hp7 : p &&& 7 = p := by rcases hp with h | h | h <;> subst h <;> decide
  unfold CheckPerm
  by_cases hu : u = ""
  · simp [hu]
  · rw [if_neg hu]
    simp only [hp7]
    by_cases h1 : (f.dir.Mode &&& 7) &&& p = p
    · simp [h1, hu]
    · rw [if_neg h1]
      by_cases h2 : f.dir.Uid = u
      · rw [if_pos h2]
        by_cases h3 : ((f.dir.Mode &&& 7) ||| ((f.dir.Mode >>> 6) &&& 7)) &&& p = p
        · simp [h3, hu, h2]
        · simp [h3, hu, h1, h2]
      · rw [if_neg h2]
        simp [h1, hu, h2]

theorem checkPerm_matches_spec_witness :
    (4 = DMREAD ∨ 4 = DMWRITE ∨ 4 = DMEXEC) ∧
    (CheckPerm fileW "mark" 4 = true ↔
      ("mark" ≠ "" ∧ ((fileW.dir.Mode &&& 7) &&& 4 = 4 ∨
        (fileW.dir.Uid = "mark" ∧
          ((fileW.dir.Mode &&& 7) ||| ((fileW.dir.Mode >>> 6) &&& 7)) &&& 4 = 4)))) :=
  ⟨by decide, checkPerm_matches_spec fileW "mark" 4 (by decide)⟩

/-! ## Claim C2 -/

/-- Claim C2 counterexample: attaching fid 1 to the root of the freshly
loaded server st0 and then clunking it is a reachable two-step run after
which the root's reference count is -1 while no open fid is bound to the
root, so the count does not equal the number of live open fids (and the
claim's invariant fails).  rclunk decrements the count of a fid that was
never opened. -/
theorem clunk_refcount_invariant_cex :
    (rclunk stAtt 1).2 = .ok () ∧
    (getFile (rclunk stAtt 1).1 (rclunk stAtt 1).1.root).refcnt = -1 ∧
    openFidCount (rclunk stAtt 1).1 (rclunk stAtt 1).1.root = 0 ∧
    (getFile (rclunk stAtt 1).1 (rclunk stAtt 1).1.root).refcnt ≠
      (openFidCount (rclunk stAtt 1).1 (rclunk stAtt 1).1.root : Int) := by decide

/-- Claim C2 amended: open increments the node's reference count and a
successful create initializes the new node's count to 1, while clunk
decrements the count unconditionally - even when the fid was never opened,
so the count can drop below zero and need not equal the number of live open
fids - and the shared handle is closed exactly when the decremented count
reaches zero. -/
theorem refcnt_transitions_amended (s : State) (n oid : Nat) (fid : Fid)
    (envo : OpenEnv) (envc : CreateEnv)
    (fcMode fcPerm cperm cmode : Nat) (cname : String)
    (so scr : State) (q : Qid)
    (h1 : alookup s.conn.fids n = some oid)
    (h2 : alookup s.fidObjs oid = some fid)
    (hfresh : fid.file ≠ s.nextFile)
    (hopen : ropen envo s n fcMode fcPerm = (so, .ok ()))
    (hcreate : rcreate envc s n cname cperm cmode = (scr, .ok q)) :
    (rclunk s n).2 = .ok () ∧
    (getFile (rclunk s n).1 fid.file).refcnt = (getFile s fid.file).refcnt - 1 ∧
    (getFile (rclunk s n).1 fid.file).handle =
      (if (getFile s fid.file).refcnt - 1 = 0 then false else (getFile s fid.file).handle) ∧
    (getFile so fid.file).refcnt = (getFile s fid.file).refcnt + 1 ∧
    (getFile scr s.nextFile).refcnt = 1 := by
  have hff : findfid s n = some (oid, fid) := by simp [findfid, h1, h2]
  have hne : ∀ (m : List (Nat × File)) (v : File),
      alookup (aset m fid.file v) s.nextFile = alookup m s.nextFile :=
    fun m v => alookup_aset_ne m fid.file s.nextFile v (Ne.symm hfresh)
  refine ⟨?_, ?_, ?_, ?_, ?_⟩
  · simp [rclunk, hff]
  · simp [rclunk, hff, getFile, setFile, alookup_aset_self]
    split <;> rfl
  · simp [rclunk, hff, getFile, setFile, alookup_aset_self]
    split
    next hcond => simp [hcond.1]
    next hcond =>
      by_cases hr : ((alookup s.files fid.file).getD zeroFile).refcnt - 1 = 0
      · simp [hr]
        exact Bool.eq_false_iff.mpr (fun hh => hcond ⟨hr, hh⟩)
      · simp [hr]
  · simp only [ropen, hff] at hopen
    split at hopen
    · simp at hopen
    · split at hopen
      · simp at hopen
      · split at hopen
        · simp at hopen
        · split at hopen
          · simp at hopen
          · split at hopen
            · simp at hopen
            · split at hopen
              · simp at hopen
              · injection hopen with hA hB
                rw [← hA]
                simp [getFile, setFile, alookup_aset_self]
  · simp only [rcreate, hff] at hcreate
    split at hcreate
    · simp at hcreate
    · split at hcreate
      · simp at hcreate
      · split at hcreate
        · simp at hcreate
        · split at hcreate
          · simp at hcreate
          · split at hcreate
            · split at hcreate
              · simp at hcreate
              · split at hcreate
                · simp at hcreate
                · simp only [rcreateCommit] at hcreate
                  split at hcreate
                  · simp at hcreate
                  · split at hcreate
                    · simp at hcreate
                    · split at hcreate
                      · simp at hcreate
                      · split at hcreate
                        · simp at hcreate
                        · injection hcreate with hA hB
                          rw [← hA]
                          simp [getFile, setFile, alookup_aset_self, hne]
            · split at hcreate
              · simp at hcreate
              · simp only [rcreateCommit] at hcreate
                split at hcreate
                · simp at hcreate
                · split at hcreate
                  · simp at hcreate
                  · split at hcreate
                    · simp at hcreate
                    · split at hcreate
                      · simp at hcreate
                      · injection hcreate with hA hB
                        rw [← hA]
                        simp [getFile, setFile, alookup_aset_self, hne]

theorem refcnt_transitions_amended_witness :
    (alookup stAtt.conn.fids 1 = some 0 ∧
      alookup stAtt.fidObjs 0 = some fidAttW ∧
      fidAttW.file ≠ stAtt.nextFile ∧
      ropen envO stAtt 1 0 0 = ((ropen envO stAtt 1 0 0).1, .ok ()) ∧
      rcreate envC stAtt 1 "t.txt" 420 1 =
        ((rcreate envC stAtt 1 "t.txt" 420 1).1, .ok ⟨42, 1000, 0⟩)) ∧
    ((rclunk stAtt 1).2 = .ok () ∧
      (getFile (rclunk stAtt 1).1 fidAttW.file).refcnt =
        (getFile stAtt fidAttW.file).refcnt - 1 ∧
      (getFile (rclunk stAtt 1).1 fidAttW.file).handle =
        (if (getFile stAtt fidAttW.file).refcnt - 1 = 0 then false
         else (getFile stAtt fidAttW.file).handle) ∧
      (getFile (ropen envO stAtt 1 0 0).1 fidAttW.file).refcnt =
        (getFile stAtt fidAttW.file).refcnt + 1 ∧
      (getFile (rcreate envC stAtt 1 "t.txt" 420 1).1 stAtt.nextFile).refcnt = 1) :=
  ⟨⟨by decide, by decide, by decide, by decide, by decide⟩,
   refcnt_transitions_amended stAtt 1 0 fidAttW envO envC 0 0 420 1 "t.txt"
     (ropen envO stAtt 1 0 0).1 (rcreate envC stAtt 1 "t.txt" 420 1).1 ⟨42, 1000, 0⟩
     (by decide) (by decide) (by decide) (by decide) (by decide)⟩

/-! ## Claim C3 -/

/-- Claim C3 (evaluation at the failing input): in st3, fid 1 is open with
mode ORDWR on a regular file, yet Twrite is refused with "not opened for
writing", because the handler tests fid.mode &&& OWRITE and ORDWR = 2 has
bit 0 clear; so a fid opened ORDWR does not pass the write-mode check. -/
theorem rwrite_ordwr_rejected :
    alookup st3.fidObjs 0 = some fidW3 ∧
    fidW3.opened = true ∧
    fidW3.mode = ORDWR ∧
    (getFile st3 fidW3.file).isDir = false ∧
    (rwrite envW st3 1 [72, 105] 0).2 = .error "not opened for writing" := by decide

/-! ## Claim C4 -/

/-- Claim C4 counterexample: (i) in stPerm the name "t.txt" is already
present in the root's children map, yet Tcreate replies "permission
denied" rather than the claimed "already exists", because the handler
checks write permission before the duplicate check and user "mark" has no
write permission on the 0555 root; (ii) in stFd the fid refers to a
regular file (not a directory), yet Tcreate succeeds, because the handler
performs no directory check and the host path it builds from the parent
node's own name lands in the real host directory "/r/d". -/
theorem rcreate_checks_cex :
    (slookup (getFile stPerm 0).children "t.txt").isSome = true ∧
    rcreate envC stPerm 1 "t.txt" 420 1 = (stPerm, .error "permission denied") ∧
    ((Except.error "permission denied" : Except String Qid) ≠ .error "already exists") ∧
    (getFile stFd fidFdW.file).isDir = false ∧
    isOkE (rcreate envC stFd 1 "x.txt" 420 1).2 = true := by decide

/-- Claim C4 amended: for a known fid, a name that is ".", ".." or ends in
".vufs" is refused with "invalid file name", leaving the state unchanged;
a name already present in the children map is refused with "already
exists" when the user has write permission on the fid's node and with
"permission denied" otherwise (the permission check runs before the
duplicate check), in both cases leaving the state unchanged; the handler
has no directory check of its own, so a Tcreate on a non-directory fid is
refused only if the host-side creation fails. -/
theorem rcreate_checks_amended (env : CreateEnv) (s : State) (n oid : Nat) (fid : Fid)
    (nameBad nameDup : String) (permD modeD : Nat)
    (h1 : alookup s.conn.fids n = some oid)
    (h2 : alookup s.fidObjs oid = some fid) :
    (validFilename nameBad = false →
      rcreate env s n nameBad permD modeD = (s, .error "invalid file name")) ∧
    (validFilename nameDup = true →
      (slookup (getFile s fid.file).children nameDup).isSome = true →
      rcreate env s n nameDup permD modeD =
        (s, .error (if CheckPerm (getFile s fid.file) fid.uid DMWRITE = true
                    then "already exists" else "permission denied"))) := by
  have hff : findfid s n = some (oid, fid) := by simp [findfid, h1, h2]
  refine ⟨?_, ?_⟩
  · intro hbad
    simp [rcreate, hff, hbad]
  · intro hv hdup
    by_cases hperm : CheckPerm (getFile s fid.file) fid.uid DMWRITE = true
    · simp [rcreate, hff, hv, hdup, hperm]
    · have hpf : CheckPerm (getFile s fid.file) fid.uid DMWRITE = false := by
        revert hperm
        cases CheckPerm (getFile s fid.file) fid.uid DMWRITE <;> simp
      simp [rcreate, hff, hv, hpf]

theorem rcreate_checks_amended_witness :
    (alookup st4.conn.fids 1 = some 0 ∧ alookup st4.fidObjs 0 = some fidAttW) ∧
    ((validFilename "x.vufs" = false →
      rcreate envC st4 1 "x.vufs" 420 1 = (st4, .error "invalid file name")) ∧
    (validFilename "t.txt" = true →
      (slookup (getFile st4 fidAttW.file).children "t.txt").isSome = true →
      rcreate envC st4 1 "t.txt" 420 1 =
        (st4, .error (if CheckPerm (getFile st4 fidAttW.file) fidAttW.uid DMWRITE = true
                      then "already exists" else "permission denied")))) :=
  ⟨⟨by decide, by decide⟩,
   rcreate_checks_amended envC st4 1 0 fidAttW "x.vufs" "t.txt" 420 1
     (by decide) (by decide)⟩

/-! ## Claim C5 -/

/-- Claim C5 counterexample: in st5 the first child's packed entry is
exactly 65 bytes; a Tread with offset 0 and count 65 covers that entry
entirely within the window [0, 65), so the claim requires the entry to be
returned, but the handler replies with empty data (its window test is
strict: bytesread + n < offset + count). -/
theorem rread_dir_window_cex :
    specDirReadClaim (childEntries st5 (getFile st5 0)) 0 65 = .ok (pdir aDirW) ∧
    (rread envR st5 1 0 65).2 = .ok [] ∧
    pdir aDirW ≠ [] := by decide

/-- Claim C5 amended: the directory reply is the concatenation of the
whole packed stat entries of the children in lexicographic name order,
consisting of the contiguous run of entries that start at or after offset
and end strictly before offset + count (an entry ending exactly at
offset + count is excluded); if some entry is returned and the first one
does not start exactly at offset, the request fails with "invalid
offset". -/
theorem rread_dir_amended (env : ReadEnv) (s : State) (n oid : Nat) (fid : Fid)
    (offset count : Nat)
    (h1 : alookup s.conn.fids n = some oid)
    (h2 : alookup s.fidObjs oid = some fid)
    (hop : fid.opened = true)
    (hdir : (getFile s fid.file).isDir = true)
    (hcnt : count ≤ s.conn.msize) :
    (rread env s n offset count).2 =
      specDirRead (childEntries s (getFile s fid.file)) offset count := by
  have hff : findfid s n = some (oid, fid) := by simp [findfid, h1, h2]
  have hc2 : ¬ (count > s.conn.msize) := by omega
  have hspec : dirReadLoop (childEntries s (getFile s fid.file)) offset count 0 [] =
      specDirRead (childEntries s (getFile s fid.file)) offset count := by
    rw [dirReadLoop_eq _ _ _ _ _ (childEntries_ne s (getFile s fid.file))]
    rw [specDirRead]
    simp only [List.length_nil, if_pos rfl]
    cases hfs : firstSelStart (childEntries s (getFile s fid.file)) offset (offset + count) 0 with
    | none => simp
    | some st =>
      by_cases hst : st = offset <;> simp [hst]
  have hmain : (rread env s n offset count).2 =
      dirReadLoop (childEntries s (getFile s fid.file)) offset count 0 [] := by
    cases hdl : dirReadLoop (childEntries s (getFile s fid.file)) offset count 0 [] with
    | error e => simp [rread, hff, hop, hc2, hdir, hdl]
    | ok data => simp [rread, hff, hop, hc2, hdir, hdl]
  rw [hmain, hspec]

theorem rread_dir_amended_witness :
    (alookup st5.conn.fids 1 = some 0 ∧ alookup st5.fidObjs 0 = some fidOpenRootW ∧
      fidOpenRootW.opened = true ∧ (getFile st5 fidOpenRootW.file).isDir = true ∧
      200 ≤ st5.conn.msize) ∧
    (rread envR st5 1 0 200).2 =
      specDirRead (childEntries st5 (getFile st5 fidOpenRootW.file)) 0 200 :=
  ⟨⟨by decide, by decide, by decide, by decide, by decide⟩,
   rread_dir_amended envR st5 1 0 fidOpenRootW 0 200
     (by decide) (by decide) (by decide) (by decide) (by decide)⟩

/-! ## Claim C6 -/

/-- Claim C6 counterexample: creating "t.txt" in stAtt with a failing
sidecar write replies with the error but leaves the created host file
"/r/t.txt" in place - the handler only closes the handle in that branch
and never removes the created object.  Both failure points of
writeOwnership are shown: when opening the sidecar fails no sidecar
exists, and when the sidecar was created but writing its contents fails,
the empty sidecar survives as well. -/
theorem rcreate_sidecar_rollback_cex :
    (rcreate envC6 stAtt 1 "t.txt" 420 1).2 = .error "disk full" ∧
    "/r/t.txt" ∈ (rcreate envC6 stAtt 1 "t.txt" 420 1).1.host.files ∧
    "/r/t.txt.vufs" ∉ (rcreate envC6 stAtt 1 "t.txt" 420 1).1.host.files ∧
    (rcreate envC6w stAtt 1 "t.txt" 420 1).2 = .error "disk full" ∧
    "/r/t.txt" ∈ (rcreate envC6w stAtt 1 "t.txt" 420 1).1.host.files ∧
    "/r/t.txt.vufs" ∈ (rcreate envC6w stAtt 1 "t.txt" 420 1).1.host.files := by decide

/-- Claim C6 amended: when the host object was created but writeOwnership
fails, Tcreate replies with the error and leaves the created host object
in place, and leaves the tree and fid table unchanged; if the failure was
in opening the sidecar file no sidecar exists, while if the sidecar file
was created and writing its contents failed, the (empty) sidecar survives
too.  The rollback that removes both the object and the sidecar happens
only in the later stat-failure branches. -/
theorem rcreate_sidecar_amended (env : CreateEnv) (s : State) (n oid : Nat) (fid : Fid)
    (name : String) (perm mode : Nat) (e : String)
    (h1 : alookup s.conn.fids n = some oid)
    (h2 : alookup s.fidObjs oid = some fid)
    (hv : validFilename name = true)
    (hperm : CheckPerm (getFile s fid.file) fid.uid DMWRITE = true)
    (hdup : slookup (getFile s fid.file).children name = none)
    (hmode : checkMode perm mode = none)
    (hsc : env.sidecarOpenErr = some e ∨
      (env.sidecarOpenErr = none ∧ env.sidecarWriteErr = some e))
    (hmk : env.mkdirErr = none)
    (hod : env.openDirErr = none)
    (hof : env.openFileErr = none)
    (hd1 : pathJoin2 s.rootPath (getFile s fid.file).dir.Name ∈ s.host.dirs)
    (hd2 : pathJoin3 s.rootPath (getFile s fid.file).dir.Name name ∉ s.host.dirs)
    (hd3 : pathJoin3 s.rootPath (getFile s fid.file).dir.Name name ∉ s.host.files)
    (hd4 : pathJoin3 s.rootPath (getFile s fid.file).dir.Name name ++ ".vufs" ∉ s.host.files) :
    (rcreate env s n name perm mode).2 = .error e ∧
    (pathJoin3 s.rootPath (getFile s fid.file).dir.Name name ∈
        (rcreate env s n name perm mode).1.host.dirs ∨
      pathJoin3 s.rootPath (getFile s fid.file).dir.Name name ∈
        (rcreate env s n name perm mode).1.host.files) ∧
    (env.sidecarOpenErr = some e →
      pathJoin3 s.rootPath (getFile s fid.file).dir.Name name ++ ".vufs" ∉
        (rcreate env s n name perm mode).1.host.files) ∧
    (env.sidecarOpenErr = none →
      pathJoin3 s.rootPath (getFile s fid.file).dir.Name name ++ ".vufs" ∈
        (rcreate env s n name perm mode).1.host.files) ∧
    (rcreate env s n name perm mode).1.files = s.files ∧
    (rcreate env s n name perm mode).1.conn = s.conn := by
  have hff : findfid s n = some (oid, fid) := by simp [findfid, h1, h2]
  have hnotin1 : pathJoin3 s.rootPath (getFile s fid.file).dir.Name name ++ ".vufs" ∉
      (pathJoin3 s.rootPath (getFile s fid.file).dir.Name name :: s.host.files) := by
    intro hm
    rcases List.mem_cons.mp hm with h | h
    · exact append_vufs_ne _ h.symm
    · exact hd4 h
  by_cases hdir : perm &&& DMDIR = 0
  · have hbr : (perm &&& DMDIR != 0) = false := by simp [hdir]
    rcases hsc with hso | ⟨hso, hsw⟩
    · have heq : rcreate env s n name perm mode =
          ({ s with host := { s.host with
              files := pathJoin3 s.rootPath (getFile s fid.file).dir.Name name ::
                s.host.files } }, .error e) := by
        simp [rcreate, hff, hv, hperm, hdup, hmode, hbr, hd1, hd2, hd3, hof,
          rcreateCommit, hso]
      rw [heq]
      refine ⟨rfl, Or.inr (List.mem_cons_self _ _), fun _ => hnotin1, ?_, rfl, rfl⟩
      intro h
      rw [hso] at h
      cases h
    · have heq : rcreate env s n name perm mode =
          ({ s with host := { s.host with
              files := (pathJoin3 s.rootPath (getFile s fid.file).dir.Name name ++ ".vufs") ::
                pathJoin3 s.rootPath (getFile s fid.file).dir.Name name ::
                s.host.files } }, .error e) := by
        simp [rcreate, hff, hv, hperm, hdup, hmode, hbr, hd1, hd2, hd3, hof,
          rcreateCommit, hso, hsw, hnotin1]
      rw [heq]
      refine ⟨rfl, Or.inr (List.mem_cons_of_mem _ (List.mem_cons_self _ _)), ?_,
        fun _ => List.mem_cons_self _ _, rfl, rfl⟩
      intro h
      rw [hso] at h
      cases h
  · have hbr : (perm &&& DMDIR != 0) = true := by simp [hdir]
    rcases hsc with hso | ⟨hso, hsw⟩
    · have heq : rcreate env s n name perm mode =
          ({ s with host := { s.host with
              dirs := pathJoin3 s.rootPath (getFile s fid.file).dir.Name name ::
                s.host.dirs } }, .error e) := by
        simp [rcreate, hff, hv, hperm, hdup, hmode, hbr, hd1, hd2, hd3, hmk, hod,
          rcreateCommit, hso]
      rw [heq]
      refine ⟨rfl, Or.inl (List.mem_cons_self _ _), fun _ => hd4, ?_, rfl, rfl⟩
      intro h
      rw [hso] at h
      cases h
    · have heq : rcreate env s n name perm mode =
          ({ s with host := { s.host with
              dirs := pathJoin3 s.rootPath (getFile s fid.file).dir.Name name ::
                s.host.dirs,
              files := (pathJoin3 s.rootPath (getFile s fid.file).dir.Name name ++ ".vufs") ::
                s.host.files } }, .error e) := by
        simp [rcreate, hff, hv, hperm, hdup, hmode, hbr, hd1, hd2, hd3, hmk, hod,
          rcreateCommit, hso, hsw, hd4]
      rw [heq]
      refine ⟨rfl, Or.inl (List.mem_cons_self _ _), ?_,
        fun _ => List.mem_cons_self _ _, rfl, rfl⟩
      intro h
      rw [hso] at h
      cases h

theorem rcreate_sidecar_amended_witness :
    (alookup stAtt.conn.fids 1 = some 0 ∧ alookup stAtt.fidObjs 0 = some fidAttW ∧
      validFilename "t.txt" = true ∧
      CheckPerm (getFile stAtt fidAttW.file) fidAttW.uid DMWRITE = true ∧
      slookup (getFile stAtt fidAttW.file).children "t.txt" = none ∧
      checkMode 420 1 = none ∧
      (envC6w.sidecarOpenErr = some "disk full" ∨
        (envC6w.sidecarOpenErr = none ∧ envC6w.sidecarWriteErr = some "disk full")) ∧
      pathJoin2 stAtt.rootPath (getFile stAtt fidAttW.file).dir.Name ∈ stAtt.host.dirs ∧
      pathJoin3 stAtt.rootPath (getFile stAtt fidAttW.file).dir.Name "t.txt" ∉
        stAtt.host.dirs ∧
      pathJoin3 stAtt.rootPath (getFile stAtt fidAttW.file).dir.Name "t.txt" ∉
        stAtt.host.files ∧
      pathJoin3 stAtt.rootPath (getFile stAtt fidAttW.file).dir.Name "t.txt" ++ ".vufs" ∉
        stAtt.host.files) ∧
    ((rcreate envC6w stAtt 1 "t.txt" 420 1).2 = .error "disk full" ∧
      (pathJoin3 stAtt.rootPath (getFile stAtt fidAttW.file).dir.Name "t.txt" ∈
          (rcreate envC6w stAtt 1 "t.txt" 420 1).1.host.dirs ∨
        pathJoin3 stAtt.rootPath (getFile stAtt fidAttW.file).dir.Name "t.txt" ∈
          (rcreate envC6w stAtt 1 "t.txt" 420 1).1.host.files) ∧
      (envC6w.sidecarOpenErr = some "disk full" →
        pathJoin3 stAtt.rootPath (getFile stAtt fidAttW.file).dir.Name "t.txt" ++ ".vufs" ∉
          (rcreate envC6w stAtt 1 "t.txt" 420 1).1.host.files) ∧
      (envC6w.sidecarOpenErr = none →
        pathJoin3 stAtt.rootPath (getFile stAtt fidAttW.file).dir.Name "t.txt" ++ ".vufs" ∈
          (rcreate envC6w stAtt 1 "t.txt" 420 1).1.host.files) ∧
      (rcreate envC6w stAtt 1 "t.txt" 420 1).1.files = stAtt.files ∧
      (rcreate envC6w stAtt 1 "t.txt" 420 1).1.conn = stAtt.conn) :=
  ⟨⟨by decide, by decide, by decide, by decide, by decide, by decide, by decide,
    by decide, by decide, by decide, by decide⟩,
   rcreate_sidecar_amended envC6w stAtt 1 0 fidAttW "t.txt" 420 1 "disk full"
     (by decide) (by decide) (by decide) (by decide) (by decide) (by decide)
     (by decide) (by decide) (by decide) (by decide) (by decide) (by decide)
     (by decide) (by decide)⟩

/-! ## Claim C7 -/

/-- Claim C7 counterexample: a successful Tremove of "/r/t.txt" in st3
deletes the host file but leaves its "/r/t.txt.vufs" ownership sidecar on
the host - rremove never touches the sidecar path. -/
theorem rremove_sidecar_cex :
    (rremove envRem st3 1).2 = .ok () ∧
    "/r/t.txt" ∉ (rremove envRem st3 1).1.host.files ∧
    "/r/t.txt.vufs" ∈ (rremove envRem st3 1).1.host.files := by decide

/-- Claim C7 amended: every successful Tremove deletes the host file,
detaches the node from its parent's children map (zeroing the node), and
removes the fid from the connection's fid table, but it does not delete
the "<path>.vufs" ownership sidecar, which remains on the host. -/
theorem rremove_amended (env : RemoveEnv) (s : State) (n oid : Nat) (fid : Fid)
    (h1 : alookup s.conn.fids n = some oid)
    (h2 : alookup s.fidObjs oid = some fid)
    (hperm : CheckPerm (getFile s (getFile s fid.file).parent) fid.uid DMWRITE = true)
    (hclose : env.closeErr = none)
    (hrm : env.removeErr = none)
    (hex : (getFile s fid.file).ospath ∈ s.host.files)
    (hnd : s.host.files.Nodup)
    (hsc : (getFile s fid.file).ospath ++ ".vufs" ∈ s.host.files) :
    (rremove env s n).2 = .ok () ∧
    (getFile s fid.file).ospath ∉ (rremove env s n).1.host.files ∧
    (getFile s fid.file).ospath ++ ".vufs" ∈ (rremove env s n).1.host.files ∧
    alookup (rremove env s n).1.conn.fids n = none ∧
    slookup (getFile (rremove env s n).1 (getFile s fid.file).parent).children
      (getFile s fid.file).dir.Name = none ∧
    getFile (rremove env s n).1 fid.file = zeroFile := by
  have hff : findfid s n = some (oid, fid) := by simp [findfid, h1, h2]
  have hcl : (if (getFile s fid.file).handle then env.closeErr else none) = none := by
    rw [hclose]
    split <;> rfl
  have hrem : hostRemove s.host (getFile s fid.file).ospath env.removeErr =
      .ok { s.host with files := s.host.files.erase (getFile s fid.file).ospath } := by
    simp [hostRemove, hex, hrm]
  refine ⟨?_, ?_, ?_, ?_, ?_, ?_⟩
  · simp [rremove, hff, hperm, hcl, hrem]
  · simp only [rremove, hff, hperm, hcl, hrem]
    simp only [setFile]
    intro hmem
    exact ((List.Nodup.mem_erase_iff hnd).mp hmem).1 rfl
  · simp only [rremove, hff, hperm, hcl, hrem]
    simp only [setFile]
    exact (List.mem_erase_of_ne (Ne.symm (append_vufs_ne _))).mpr hsc
  · simp only [rremove, hff, hperm, hcl, hrem]
    exact alookup_adel_self s.conn.fids n
  · by_cases hpf : (getFile s fid.file).parent = fid.file
    · simp only [getFile] at hpf
      simp only [rremove, hff, hperm, hcl, hrem]
      simp only [getFile, setFile]
      simp only [hpf]
      simp [alookup_aset_self, zeroFile, slookup]
    · simp only [getFile] at hpf
      simp only [rremove, hff, hperm, hcl, hrem]
      simp only [getFile, setFile]
      simp [alookup_aset_self, alookup_aset_ne, slookup_sdel_self, hpf]
  · simp only [rremove, hff, hperm, hcl, hrem]
    simp [getFile, setFile, alookup_aset_self]

theorem rremove_amended_witness :
    (alookup st3.conn.fids 1 = some 0 ∧ alookup st3.fidObjs 0 = some fidW3 ∧
      CheckPerm (getFile st3 (getFile st3 fidW3.file).parent) fidW3.uid DMWRITE = true ∧
      envRem.closeErr = none ∧ envRem.removeErr = none ∧
      (getFile st3 fidW3.file).ospath ∈ st3.host.files ∧
      st3.host.files.Nodup ∧
      (getFile st3 fidW3.file).ospath ++ ".vufs" ∈ st3.host.files) ∧
    ((rremove envRem st3 1).2 = .ok () ∧
      (getFile st3 fidW3.file).ospath ∉ (rremove envRem st3 1).1.host.files ∧
      (getFile st3 fidW3.file).ospath ++ ".vufs" ∈ (rremove envRem st3 1).1.host.files ∧
      alookup (rremove envRem st3 1).1.conn.fids 1 = none ∧
      slookup (getFile (rremove envRem st3 1).1 (getFile st3 fidW3.file).parent).children
        (getFile st3 fidW3.file).dir.Name = none ∧
      getFile (rremove envRem st3 1).1 fidW3.file = zeroFile) :=
  ⟨⟨by decide, by decide, by decide, by decide, by decide, by decide, by decide,
    by decide⟩,
   rremove_amended envRem st3 1 0 fidW3 (by decide) (by decide) (by decide)
     (by decide) (by decide) (by decide) (by decide) (by decide)⟩

/-! ## Claim C8 -/

/-- Claim C8: for every Tversion, the negotiated msize is
min(proposed, MAX_MSIZE = 131072) and the reply version is "9P2000" when
the proposal truncated at its first dot equals "9P2000" and "unknown"
otherwise; the connection's in-force msize is updated to the negotiated
value. -/
theorem rversion_negotiation (s : State) (msize : Nat) (version : String) :
    rversion s msize version =
      ({ s with conn := { s.conn with msize := min msize MAX_MSIZE } },
       (min msize MAX_MSIZE,
        if specTrunc version = VERSION9P then VERSION9P else "unknown")) := by
  unfold rversion
  have hmin : (if msize > MAX_MSIZE then MAX_MSIZE else msize) = min msize MAX_MSIZE := by
    rw [Nat.min_def]
    by_cases h : msize > MAX_MSIZE
    · rw [if_pos h, if_neg (show ¬ msize ≤ MAX_MSIZE by omega)]
    · rw [if_neg h, if_pos (show msize ≤ MAX_MSIZE by omega)]
  rw [hmin]
  simp only [truncVersion_eq_spec version]

/-! ## Claim C9 -/

/-- Claim C9 counterexample: a zero-name Twalk in stAtt succeeds but the
Rwalk reply carries one qid (the fid node's qid), not zero qids as the
claim states - the handler appends fid.file.Qid even in the zero-name
case. -/
theorem rwalk_zeronames_cex :
    (rwalk stAtt 1 2 []).2 = .ok [⟨11, 7, 0x80⟩] ∧
    ((Except.ok [(⟨11, 7, 0x80⟩ : Qid)] : Except String (List Qid)) ≠ .ok []) := by decide

/-- Claim C9 amended: a zero-name Twalk on a known, not-open fid binds
newfid to the very same fid object as fid (hence the same node, sharing
the open state), and the Rwalk reply carries exactly one qid: the qid of
the fid's node. -/
theorem rwalk_zeronames_amended (s : State) (n newfid oid : Nat) (fid : Fid)
    (h1 : alookup s.conn.fids n = some oid)
    (h2 : alookup s.fidObjs oid = some fid)
    (h3 : fid.opened = false) :
    rwalk s n newfid [] =
      ({ s with conn := { s.conn with fids := aset s.conn.fids newfid oid } },
       .ok [(getFile s fid.file).dir.Qid]) ∧
    alookup (rwalk s n newfid []).1.conn.fids newfid = some oid ∧
    alookup (rwalk s n newfid []).1.conn.fids n = some oid := by
  have hff : findfid s n = some (oid, fid) := by simp [findfid, h1, h2]
  have heq : rwalk s n newfid [] =
      ({ s with conn := { s.conn with fids := aset s.conn.fids newfid oid } },
       .ok [(getFile s fid.file).dir.Qid]) := by
    simp [rwalk, hff, h3]
  refine ⟨heq, ?_, ?_⟩
  · rw [heq]
    exact alookup_aset_self s.conn.fids newfid oid
  · rw [heq]
    by_cases hnn : n = newfid
    · subst hnn
      simpa using alookup_aset_self s.conn.fids n oid
    · have hne := alookup_aset_ne s.conn.fids newfid n oid hnn
      simp only [hne]
      exact h1

theorem rwalk_zeronames_amended_witness :
    (alookup stAtt.conn.fids 1 = some 0 ∧ alookup stAtt.fidObjs 0 = some fidAttW ∧
      fidAttW.opened = false) ∧
    (rwalk stAtt 1 2 [] =
      ({ stAtt with conn := { stAtt.conn with fids := aset stAtt.conn.fids 2 0 } },
       .ok [(getFile stAtt fidAttW.file).dir.Qid]) ∧
    alookup (rwalk stAtt 1 2 []).1.conn.fids 2 = some 0 ∧
    alookup (rwalk stAtt 1 2 []).1.conn.fids 1 = some 0) :=
  ⟨⟨by decide, by decide, by decide⟩,
   rwalk_zeronames_amended stAtt 1 2 0 fidAttW (by decide) (by decide) (by decide)⟩

/-! ## Claim C10 -/

/-- Claim C10: Tattach with aname "/", afid NOFID and an unused fid
succeeds for every uname - the virtual user registry is never consulted
(the handler state contains no registry at all) - binding the fid to the
root node with exactly that uname recorded; and an empty user name makes
every later permission check deny. -/
theorem rattach_no_registry (s : State) (n : Nat) (uname : String) (g : File) (p : Nat)
    (hn : alookup s.conn.fids n = none) :
    (rattach s n NOFID uname "/").2 = .ok (getFile s s.root).dir.Qid ∧
    alookup (rattach s n NOFID uname "/").1.conn.fids n = some s.nextFid ∧
    alookup (rattach s n NOFID uname "/").1.fidObjs s.nextFid =
      some { file := s.root, uid := uname, opened := false, mode := 0 } ∧
    CheckPerm g "" p = false := by
  have hff : findfid s n = none := by simp [findfid, hn]
  refine ⟨?_, ?_, ?_, ?_⟩
  · simp [rattach, hff, getFile]
  · simp [rattach, hff, alookup_aset_self]
  · simp [rattach, hff, alookup_aset_self]
  · simp [CheckPerm]

theorem rattach_no_registry_witness :
    (alookup st0.conn.fids 5 = none) ∧
    ((rattach st0 5 NOFID "" "/").2 = .ok (getFile st0 st0.root).dir.Qid ∧
    alookup (rattach st0 5 NOFID "" "/").1.conn.fids 5 = some st0.nextFid ∧
    alookup (rattach st0 5 NOFID "" "/").1.fidObjs st0.nextFid =
      some { file := st0.root, uid := "", opened := false, mode := 0 } ∧
    CheckPerm fileW "" DMWRITE = false) :=
  ⟨by decide, rattach_no_registry st0 5 "" fileW DMWRITE (by decide)⟩

end VufsProof
